import Mathlib

/-!
Verification of the Inspired-Librarian recommendation core against its code.

The definitions below are a shallow embedding of the TypeScript source:
the recommendation scoring/selection pipeline and cache-key logic of
services/geminiService.ts, and the cover-resolution logic of
components/BookCard.tsx.  JavaScript strings are modeled as Lean strings
(operating on their character lists), JavaScript numbers as Int/Rat, and
the float produced by parseFloat as an exact rational together with an
explicit infinity marker (NaN is represented as Option.none where it can
arise).  External services (the generative oracle, the two cover sources)
are modeled as explicit oracle parameters; Math.random is modeled as an
injected jitter function.
-/

/-! ### JavaScript string primitives, modeled on character lists -/

/-- Does the second list start with the first (needle, haystack)?  Models the
anchored comparison underlying String.prototype.includes. -/
def listLeads : List Char → List Char → Bool
  | [], _ => true
  | _ :: _, [] => false
  | n :: ns, h :: hs => n = h && listLeads ns hs

/-- Does the needle occur as a contiguous run anywhere in the haystack?
Models String.prototype.includes (haystack.includes needle). -/
def listOccurs : List Char → List Char → Bool
  | ns, [] => ns.isEmpty
  | ns, h :: hs => listLeads ns (h :: hs) || listOccurs ns hs

/-- JS s.includes(sub). -/
def jsIncludes (s sub : String) : Bool :=
  listOccurs sub.data s.data

/-- JS s.startsWith(pre). -/
def jsStartsWith (s pre : String) : Bool :=
  listLeads pre.data s.data

/-- JS String.prototype.toLowerCase, on the ASCII range. -/
def jsToLower (s : String) : String :=
  ⟨s.data.map Char.toLower⟩

/-- The whitespace characters trimmed by JS String.prototype.trim
(ASCII range). -/
def isJsSpace (c : Char) : Bool :=
  c = ' ' || c = '\t' || c = '\n' || c = '\r' || c = '\x0b' || c = '\x0c'

/-- JS String.prototype.trim. -/
def jsTrim (s : String) : String :=
  ⟨((s.data.dropWhile isJsSpace).reverse.dropWhile isJsSpace).reverse⟩

/-- Split a character list at every occurrence of the separator, keeping
empty pieces; models JS String.prototype.split with a one-character
separator. -/
def splitChars (sep : Char) : List Char → List (List Char)
  | [] => [[]]
  | h :: t =>
    if h = sep then [] :: splitChars sep t
    else
      match splitChars sep t with
      | [] => [[h]]
      | x :: xs => (h :: x) :: xs

/-- JS s.split(sep) for a one-character separator. -/
def jsSplit (s : String) (sep : Char) : List String :=
  (splitChars sep s.data).map fun l => ⟨l⟩

/-! ### Decimal rendering of a natural number, as produced by a JS
template literal interpolating an integer-valued number -/

/-- Big-endian decimal digit characters of n, with explicit fuel (the fuel
is structural; any fuel at least n suffices). -/
def decDigitsAux : Nat → Nat → List Char
  | 0, _ => []
  | fuel + 1, n =>
    if n = 0 then []
    else decDigitsAux fuel (n / 10) ++ [Nat.digitChar (n % 10)]

/-- Decimal string of a natural number, as a JS template literal renders an
integer-valued number. -/
def jsNatRepr (n : Nat) : String :=
  if n = 0 then "0" else ⟨decDigitsAux n n⟩

/-- Decode a list of decimal digit characters back to a number (helper used
to prove jsNatRepr injective). -/
def decodeDecDigits (l : List Char) : Nat :=
  l.foldl (fun a c => a * 10 + (c.toNat - 48)) 0

/-! ### Category split (geminiService.ts, generateBookRecommendations,
lines 209-211) -/

/-- Source: const mustReadCount = Math.max(5, Math.floor(limit / 2)). -/
def mustReadCount (limit : Nat) : Nat :=
  max 5 (limit / 2)

/-- Source: const recommendedCount = limit - mustReadCount.  JS subtraction
can go negative, so the result is an integer. -/
def recommendedCount (limit : Nat) : Int :=
  (limit : Int) - mustReadCount limit

/-! ### Recommendation cache key (geminiService.ts, line 151) -/

/-- JS (query or 'none'): an absent or empty query renders as "none". -/
def queryKeyPart : Option String → String
  | none => "none"
  | some s => if s = "" then "none" else s

/-- Source: cacheKey = CACHE_KEY_PREFIX + grade + "_" + theme + "_" + month
+ "_count_" + limit + "_search_" + (query or 'none'), with
CACHE_KEY_PREFIX = "cec_recs_v13_". -/
def cacheKeyOf (grade theme month : String) (limit : Nat)
    (query : Option String) : String :=
  "cec_recs_v13_" ++ grade ++ "_" ++ theme ++ "_" ++ month ++ "_count_" ++
    jsNatRepr limit ++ "_search_" ++ queryKeyPart query

/-! ### JS parseFloat and the catalog loader (geminiService.ts,
parseBookData, lines 70-95) -/

/-- The value of a JS number produced by parseFloat when it is not NaN:
either a finite value (modeled as an exact rational; double rounding is
not modeled) or a signed infinity from an "Infinity" literal. -/
inductive JsFloat where
  | finite (q : ℚ)
  | infty (neg : Bool)
deriving DecidableEq

/-- Numeric value of a run of decimal digit characters. -/
def digitRunVal (l : List Char) : Nat :=
  l.foldl (fun a c => a * 10 + (c.toNat - 48)) 0

/-- Signed exponent parsed from an ExponentPart prefix (e or E, optional
sign, at least one digit); 0 when no well-formed exponent follows, since
parseFloat uses the longest well-formed numeric prefix. -/
def parseExponent (l : List Char) : Int :=
  match l with
  | 'e' :: r | 'E' :: r =>
    let (neg, r2) :=
      match r with
      | '-' :: r3 => (true, r3)
      | '+' :: r3 => (false, r3)
      | _ => (false, r)
    let ds := r2.takeWhile Char.isDigit
    if ds.isEmpty then 0
    else if neg then -(digitRunVal ds : Int) else (digitRunVal ds : Int)
  | _ => 0

/-- JS parseFloat: skip leading whitespace, read an optional sign, then the
longest StrDecimalLiteral prefix ("Infinity", or digits with optional
fraction and exponent).  Returns none exactly when parseFloat returns NaN. -/
def jsParseFloat (s : String) : Option JsFloat :=
  let cs := s.data.dropWhile isJsSpace
  let (neg, rest) :=
    match cs with
    | '-' :: r => (true, r)
    | '+' :: r => (false, r)
    | _ => (false, cs)
  if listLeads "Infinity".data rest then some (JsFloat.infty neg)
  else
    let intD := rest.takeWhile Char.isDigit
    let rest2 := rest.dropWhile Char.isDigit
    let (fracD, rest3) :=
      match rest2 with
      | '.' :: r => (r.takeWhile Char.isDigit, r.dropWhile Char.isDigit)
      | _ => ([], rest2)
    if intD.isEmpty && fracD.isEmpty then none
    else
      let e := parseExponent rest3
      let mag : ℚ :=
        (digitRunVal (intD ++ fracD) : ℚ) / (10 : ℚ) ^ fracD.length *
          (10 : ℚ) ^ e
      some (JsFloat.finite (if neg then -mag else mag))

/-- A catalog entry (geminiService.ts, interface RawBook).  Column reads
past the end of a short row yield JS undefined; such reads are modeled as
the empty string. -/
structure RawBook where
  id : String
  code : String
  title : String
  series : String
  author : String
  lexile : String
  bl : JsFloat
  genre : String
  theme : String
  summary : String
deriving DecidableEq

/-- One line of the TSV dataset: split on tabs, drop the line if it has
fewer than 8 columns or parseFloat of its 8th column is NaN. -/
def lineToBook (line : String) : Option RawBook :=
  let cols := jsSplit line '\t'
  if cols.length < 8 then none
  else
    match jsParseFloat (cols.getD 7 "") with
    | none => none
    | some bl =>
      some ⟨cols.getD 0 "", cols.getD 2 "", cols.getD 3 "", cols.getD 4 "",
        cols.getD 5 "", cols.getD 6 "", bl, cols.getD 8 "", cols.getD 10 "",
        cols.getD 12 ""⟩

/-- Source: parseBookData — trim, split into lines, keep well-formed rows. -/
def parseBookData (tsvData : String) : List RawBook :=
  ((jsTrim tsvData).data |> splitChars '\n').filterMap
    fun l => lineToBook ⟨l⟩

/-- The spec's side condition, stated in the spec's own words: the 8th
column parses as a FINITE decimal number.  Kept separate from the source
translation so the two can be compared. -/
def specParsesAsFiniteDecimal (col : String) : Bool :=
  match jsParseFloat col with
  | some (JsFloat.finite _) => true
  | _ => false

/-! ### Grade range resolver (geminiService.ts, getBlRange, lines 99-108) -/

/-- Source: getBlRange — case-insensitive substring match on the grade
label; unknown grades map to the widest interval. -/
def getBlRange (grade : String) : ℚ × ℚ :=
  let g := jsToLower grade
  if jsIncludes g "1st" then (1/10, 3/2)
  else if jsIncludes g "2nd" then (1, 14/5)
  else if jsIncludes g "3rd" then (2, 19/5)
  else if jsIncludes g "4th" then (3, 24/5)
  else if jsIncludes g "5th" then (7/2, 6)
  else if jsIncludes g "6th" then (7/2, 8)
  else (1/10, 13)

/-- b.bl >= q for the parsed book level (q a finite bound). -/
def JsFloat.geQ : JsFloat → ℚ → Bool
  | JsFloat.finite a, q => decide (q ≤ a)
  | JsFloat.infty neg, _ => !neg

/-- b.bl <= q for the parsed book level (q a finite bound). -/
def JsFloat.leQ : JsFloat → ℚ → Bool
  | JsFloat.finite a, q => decide (a ≤ q)
  | JsFloat.infty neg, _ => neg

/-! ### Relevance scorer (geminiService.ts, getRelevancyScore,
lines 110-142).  The source accumulates a single score variable; it is
translated here as the sum of the query, theme, and month contributions,
with the early return for a disqualified query kept explicit. -/

/-- The concatenated searchable text, lowercased:
(title + " " + author + " " + theme + " " + summary + " " + genre)
.toLowerCase(). -/
def searchText (b : RawBook) : String :=
  jsToLower (b.title ++ " " ++ b.author ++ " " ++ b.theme ++ " " ++
    b.summary ++ " " ++ b.genre)

/-- The guard of the query block: query && query.trim().length > 0. -/
def queryActive : Option String → Bool
  | none => false
  | some s => jsTrim s ≠ ""

/-- The normalized query used for matching: query.toLowerCase().trim(). -/
def normQuery : Option String → String
  | none => ""
  | some s => jsTrim (jsToLower s)

/-- Points accumulated inside the query block (0 when the block is
skipped): +50 title match, +40 author match, +20 anywhere in the
searchable text. -/
def queryScore (b : RawBook) (query : Option String) : Int :=
  if queryActive query then
    let q := normQuery query
    (if jsIncludes (jsToLower b.title) q then 50 else 0) +
    (if jsIncludes (jsToLower b.author) q then 40 else 0) +
    (if jsIncludes (searchText b) q then 20 else 0)
  else 0

/-- Points from the nine theme buckets, each +30, applied only when the
lowercased theme is not "all themes". -/
def themeScore (b : RawBook) (theme : String) : Int :=
  let t := jsToLower theme
  let text := searchText b
  if t ≠ "all themes" then
    (if jsIncludes t "animals" ∧ (jsIncludes text "animal" ∨
        jsIncludes text "dog" ∨ jsIncludes text "cat" ∨
        jsIncludes text "zoo" ∨ jsIncludes text "bird" ∨
        jsIncludes text "nature") then 30 else 0) +
    (if jsIncludes t "fantasy" ∧ (jsIncludes text "magic" ∨
        jsIncludes text "fantasy" ∨ jsIncludes text "wizard" ∨
        jsIncludes text "dragon" ∨ jsIncludes text "fairy") then 30 else 0) +
    (if jsIncludes t "history" ∧ (jsIncludes text "history" ∨
        jsIncludes text "past" ∨ jsIncludes text "biography" ∨
        jsIncludes text "president" ∨ jsIncludes text "war") then 30 else 0) +
    (if jsIncludes t "science" ∧ (jsIncludes text "science" ∨
        jsIncludes text "space" ∨ jsIncludes text "planet" ∨
        jsIncludes text "math" ∨ jsIncludes text "discover") then 30 else 0) +
    (if jsIncludes t "friendship" ∧ (jsIncludes text "friend" ∨
        jsIncludes text "feeling" ∨ jsIncludes text "social" ∨
        jsIncludes text "family") then 30 else 0) +
    (if jsIncludes t "mystery" ∧ (jsIncludes text "mystery" ∨
        jsIncludes text "detective" ∨ jsIncludes text "solve" ∨
        jsIncludes text "adventure" ∨ jsIncludes text "secret")
      then 30 else 0) +
    (if jsIncludes t "sports" ∧ (jsIncludes text "sport" ∨
        jsIncludes text "soccer" ∨ jsIncludes text "baseball" ∨
        jsIncludes text "game" ∨ jsIncludes text "hobby") then 30 else 0) +
    (if jsIncludes t "holidays" ∧ (jsIncludes text "holiday" ∨
        jsIncludes text "christmas" ∨ jsIncludes text "thanksgiving" ∨
        jsIncludes text "season") then 30 else 0) +
    (if jsIncludes t "humor" ∧ (jsIncludes text "humor" ∨
        jsIncludes text "funny" ∨ jsIncludes text "silly" ∨
        jsIncludes text "clown" ∨ jsIncludes text "joke") then 30 else 0)
  else 0

/-- Seasonal +5 bonuses keyed on the lowercased month. -/
def monthScore (b : RawBook) (month : String) : Int :=
  let m := jsToLower month
  let text := searchText b
  (if m = "january" ∧ (jsIncludes text "snow" ∨ jsIncludes text "winter")
    then 5 else 0) +
  (if m = "february" ∧ (jsIncludes text "valentine" ∨
      jsIncludes text "heart") then 5 else 0) +
  (if m = "october" ∧ (jsIncludes text "halloween" ∨
      jsIncludes text "pumpkin") then 5 else 0) +
  (if m = "december" ∧ (jsIncludes text "christmas" ∨
      jsIncludes text "holiday") then 5 else 0)

/-- Source: getRelevancyScore.  Inside an active query block, a score still
below 20 returns the -100 sentinel before theme and month points accrue. -/
def getRelevancyScore (b : RawBook) (month theme : String)
    (query : Option String) : Int :=
  if queryActive query ∧ queryScore b query < 20 then -100
  else queryScore b query + themeScore b theme + monthScore b month

/-! ### Candidate selection and the recommendation orchestrator
(geminiService.ts, generateBookRecommendations, lines 144-244).
localStorage, Math.random and the generative service are modeled as
explicit parameters: the store as an association list whose entries
either parse back to a result or are corrupt, the per-candidate jitter as
an injected function, and the service round trip (including JSON parsing
of its text) as an Except value. -/

/-- JS truthiness of an optional string: undefined and "" are falsy. -/
def jsFalsyOpt : Option String → Bool
  | none => true
  | some s => s = ""

/-- A curated book as returned by the generative service (types.ts Book,
restricted to the response-schema fields; only the list structure matters
to the cache-write claims). -/
structure CuratedBook where
  id : String
  code : String
  title : String
  author : String
  lexile : String
  bl : String
  summary : String
  videoUrl : String
  difficulty : String
  category : String
deriving DecidableEq

/-- The parsed recommendation result: { books: [...] }. -/
structure RecResult where
  books : List CuratedBook
deriving DecidableEq

/-- A durable-store entry: either JSON that parses back to a result, or a
corrupt string (JSON.parse throws). -/
inductive StoredVal where
  | corrupt
  | valid (r : RecResult)
deriving DecidableEq

/-- Observable outcome of one generateBookRecommendations call: the
returned (or thrown) value, the setItem calls issued, and the removeItem
calls issued. -/
structure GenOutcome where
  result : Except String RecResult
  writes : List (String × RecResult)
  removals : List String

/-- Candidate pool: the whole catalog under a truthy query, otherwise the
catalog filtered to bl within [min - 0.3, max + 0.3] for the grade. -/
def candidatePool (db : List RawBook) (grade : String)
    (query : Option String) : List RawBook :=
  if jsFalsyOpt query then
    let mm := getBlRange grade
    db.filter fun b => b.bl.geQ (mm.1 - 3/10) && b.bl.leQ (mm.2 + 3/10)
  else db

/-- Scored candidates: relevance score plus per-candidate jitter
(Math.random()), keeping those with combined score > -5. -/
def scoredCandidates (db : List RawBook) (grade month theme : String)
    (query : Option String) (jitter : Nat → ℚ) : List (RawBook × ℚ) :=
  (((candidatePool db grade query).enum).map fun p =>
      (p.2, (getRelevancyScore p.2 month theme query : ℚ) + jitter p.1)
    ).filter fun p => decide (p.2 > -5)

/-- Stable insertion of one scored candidate into a descending list;
models the effect of sort((a, b) => b.score - a.score). -/
def insertByScore (x : RawBook × ℚ) :
    List (RawBook × ℚ) → List (RawBook × ℚ)
  | [] => [x]
  | y :: t => if x.2 > y.2 then x :: y :: t else y :: insertByScore x t

/-- Sort scored candidates by combined score, descending. -/
def sortByScoreDesc : List (RawBook × ℚ) → List (RawBook × ℚ)
  | [] => []
  | x :: t => insertByScore x (sortByScoreDesc t)

/-- The pipeline from a cache miss on: API-key guard, candidate scoring,
truncation to max(40, limit*2), the query-mode empty short-circuit, the
service call, and the guarded cache write. -/
def genAfterMiss (db : List RawBook) (apiKey : Option String)
    (grade month theme : String) (limit : Nat) (query : Option String)
    (jitter : Nat → ℚ) (ai : Except Unit RecResult)
    (removals : List String) : GenOutcome :=
  if jsFalsyOpt apiKey then
    ⟨Except.error "API Key is missing.", [], removals⟩
  else
    let key := cacheKeyOf grade theme month limit query
    let top := (sortByScoreDesc
        (scoredCandidates db grade month theme query jitter)).take
      (max 40 (limit * 2))
    if !jsFalsyOpt query && top.isEmpty then
      ⟨Except.ok ⟨[]⟩, [], removals⟩
    else
      match ai with
      | Except.error _ => ⟨Except.error "Gemini Error", [], removals⟩
      | Except.ok result =>
        if 0 < result.books.length then
          ⟨Except.ok result, [(key, result)], removals⟩
        else ⟨Except.ok result, [], removals⟩

/-- Source: generateBookRecommendations.  A stored entry that parses is
returned as a hit; a corrupt entry is removed and treated as a miss. -/
def generateBookRecommendations (db : List RawBook) (apiKey : Option String)
    (grade month theme : String) (limit : Nat) (query : Option String)
    (store : List (String × StoredVal)) (jitter : Nat → ℚ)
    (ai : Except Unit RecResult) : GenOutcome :=
  let key := cacheKeyOf grade theme month limit query
  match store.lookup key with
  | some (StoredVal.valid r) => ⟨Except.ok r, [], []⟩
  | some StoredVal.corrupt =>
    genAfterMiss db apiKey grade month theme limit query jitter ai [key]
  | none =>
    genAfterMiss db apiKey grade month theme limit query jitter ai []

/-! ### Cover resolution (components/BookCard.tsx).  The two module-level
maps are the state; the two source lookups are modeled by their outcomes
(some url on success, none when the source errors or yields no usable
image), and the promise race by a resolution relation. -/

/-- url.replace of the anchored pattern matching "http://" or "https://"
with the empty string. -/
def stripProtocol (u : String) : String :=
  if jsStartsWith u "https://" then ⟨u.data.drop 8⟩
  else if jsStartsWith u "http://" then ⟨u.data.drop 7⟩
  else u

/-- Characters that encodeURIComponent leaves unescaped. -/
def isUriUnescaped (c : Char) : Bool :=
  ('A' ≤ c && c ≤ 'Z') || ('a' ≤ c && c ≤ 'z') || ('0' ≤ c && c ≤ '9') ||
    c = '-' || c = '_' || c = '.' || c = '!' || c = '~' || c = '*' ||
    c = '\'' || c = '(' || c = ')'

/-- UTF-8 bytes of a character, as numbers. -/
def utf8BytesOf (c : Char) : List Nat :=
  let n := c.toNat
  if n < 128 then [n]
  else if n < 2048 then [192 + n / 64, 128 + n % 64]
  else if n < 65536 then
    [224 + n / 4096, 128 + n / 64 % 64, 128 + n % 64]
  else
    [240 + n / 262144, 128 + n / 4096 % 64, 128 + n / 64 % 64, 128 + n % 64]

/-- Uppercase hexadecimal digit. -/
def hexDigitChar (n : Nat) : Char :=
  if n < 10 then Char.ofNat (48 + n) else Char.ofNat (55 + n)

/-- JS encodeURIComponent. -/
def encodeURIComponent (s : String) : String :=
  ⟨s.data.foldr
    (fun c acc =>
      if isUriUnescaped c then c :: acc
      else (utf8BytesOf c).foldr
        (fun b a => '%' :: hexDigitChar (b / 16) :: hexDigitChar (b % 16) :: a)
        acc)
    []⟩

/-- Source: getProxiedUrl — data: URLs pass through; otherwise the
protocol is stripped and the URL is routed through the wsrv.nl proxy at
width 400 with webp output. -/
def getProxiedUrl (url : String) : String :=
  if jsStartsWith url "data:" then url
  else "https://wsrv.nl/?url=" ++ encodeURIComponent (stripProtocol url) ++
    "&w=400&output=webp"

/-- The possible resolutions of the cover race, given the outcome of the
Google Books lookup and of the Open Library lookup (some url on success,
none on error or no usable image).  A successful source may resolve the
race with its proxied URL; only when both have failed does the race
resolve to null. -/
inductive RaceResolves : Option String → Option String → Option String → Prop
  | bothFail : RaceResolves none none none
  | gbWins (u : String) (ol : Option String) :
      RaceResolves (some u) ol (some (getProxiedUrl u))
  | olWins (gb : Option String) (u : String) :
      RaceResolves gb (some u) (some (getProxiedUrl u))

/-- The two module-level caches of BookCard.tsx: coverCache holds resolved
URLs, promiseCache holds the settled value of the memoized race promise
for each key that ever started a resolution. -/
structure CoverState where
  coverCache : List (String × String)
  promiseCache : List (String × Option String)
deriving DecidableEq

/-- Observable outcome of one resolution pass: the updated caches, the
awaited value, and whether fresh source lookups were issued. -/
structure CoverStep where
  state : CoverState
  result : Option String
  fetched : Bool
deriving DecidableEq

/-- The cache key: book.title + "-" + book.author. -/
def coverKey (title author : String) : String :=
  title ++ "-" ++ author

/-- Source: loadCover — reuse the memoized promise when present (no new
lookups), otherwise start a fresh race and memoize its promise; after
awaiting, a non-null URL is written to coverCache.  freshOutcome is the
value the fresh race would settle to. -/
def loadCover (s : CoverState) (key : String)
    (freshOutcome : Option String) : CoverStep :=
  match s.promiseCache.lookup key with
  | some settled =>
    ⟨⟨match settled with
        | some url => (key, url) :: s.coverCache
        | none => s.coverCache,
      s.promiseCache⟩, settled, false⟩
  | none =>
    ⟨⟨match freshOutcome with
        | some url => (key, url) :: s.coverCache
        | none => s.coverCache,
      (key, freshOutcome) :: s.promiseCache⟩, freshOutcome, true⟩

/-- One full resolution pass of the effect body: a coverCache hit returns
synchronously; otherwise loadCover runs. -/
def resolveCover (s : CoverState) (key : String)
    (freshOutcome : Option String) : CoverStep :=
  match s.coverCache.lookup key with
  | some url => ⟨s, some url, false⟩
  | none => loadCover s key freshOutcome

/-! ### Cover-match verification (geminiService.ts, verifyBookCoverMatch,
lines 246-268) -/

/-- The parsed verdict { isMatch, reason }. -/
structure Verdict where
  isMatch : Bool
  reason : String
deriving DecidableEq

/-- Source: verifyBookCoverMatch.  The API-key guard throws before the try
block; inside it, a service result that arrives and parses is returned,
and any failure of the call (or of JSON parsing) is caught and mapped to
a negative verdict.  The image and claimed title/author only shape the
request; the outcome of the round trip is the oracle parameter. -/
def verifyBookCoverMatch (base64Image title author : String)
    (apiKey : Option String) (outcome : Except Unit Verdict) :
    Except String Verdict :=
  if jsFalsyOpt apiKey then Except.error "API Key is missing."
  else
    match outcome with
    | Except.ok v => Except.ok v
    | Except.error _ => Except.ok ⟨false, "Verification service failed."⟩

/-! ### Helper lemmas -/

theorem strData_append (a b : String) : (a ++ b).data = a.data ++ b.data :=
  rfl

theorem listLeads_append (n l1 l2 : List Char)
    (h : listLeads n l1 = true) : listLeads n (l1 ++ l2) = true := by
  induction n generalizing l1 with
  | nil => cases l1 <;> simp [listLeads]
  | cons c cs ih =>
    cases l1 with
    | nil => simp [listLeads] at h
    | cons d ds =>
      simp only [listLeads, Bool.and_eq_true, decide_eq_true_eq] at h ⊢
      exact ⟨h.1, ih ds h.2⟩

theorem listOccurs_append_right (n l1 l2 : List Char)
    (h : listOccurs n l1 = true) : listOccurs n (l1 ++ l2) = true := by
  induction l1 with
  | nil =>
    simp only [listOccurs, List.isEmpty_iff] at h
    subst h
    cases l2 <;> simp [listOccurs, listLeads]
  | cons d ds ih =>
    simp only [listOccurs, Bool.or_eq_true, List.cons_append] at h ⊢
    rcases h with h | h
    · exact Or.inl (listLeads_append n (d :: ds) l2 h)
    · exact Or.inr (ih h)

theorem listOccurs_append_left (n l1 l2 : List Char)
    (h : listOccurs n l2 = true) : listOccurs n (l1 ++ l2) = true := by
  induction l1 with
  | nil => simpa using h
  | cons d ds ih =>
    simp only [listOccurs, Bool.or_eq_true, List.cons_append]
    exact Or.inr ih

theorem digitChar_toNat (d : Nat) (h : d < 10) :
    (Nat.digitChar d).toNat = 48 + d := by
  interval_cases d <;> rfl

theorem decodeDecDigits_append_digit (l : List Char) (c : Char) :
    decodeDecDigits (l ++ [c]) = decodeDecDigits l * 10 + (c.toNat - 48) := by
  simp [decodeDecDigits, List.foldl_append]

theorem decodeDecDigits_decDigitsAux (fuel n : Nat) (h : n ≤ fuel) :
    decodeDecDigits (decDigitsAux fuel n) = n := by
  induction fuel generalizing n with
  | zero =>
    interval_cases n
    simp [decDigitsAux, decodeDecDigits]
  | succ f ih =>
    by_cases hn : n = 0
    · subst hn; simp [decDigitsAux, decodeDecDigits]
    · have hdiv : n / 10 ≤ f := by omega
      simp only [decDigitsAux, if_neg hn, decodeDecDigits_append_digit,
        ih (n / 10) hdiv, digitChar_toNat (n % 10) (Nat.mod_lt n (by omega))]
      omega

theorem decode_jsNatRepr (n : Nat) :
    decodeDecDigits (jsNatRepr n).data = n := by
  by_cases hn : n = 0
  · subst hn; rfl
  · simp only [jsNatRepr, if_neg hn]
    exact decodeDecDigits_decDigitsAux n n le_rfl

theorem jsNatRepr_inj (a b : Nat) (h : jsNatRepr a = jsNatRepr b) : a = b := by
  have := congrArg (fun s => decodeDecDigits s.data) h
  simpa [decode_jsNatRepr] using this

/-! ### C1: category split -/

/-- C1 counterexample: at the requested count 11 (odd), the split is
mustRead = 5, recommended = 6 — strictly more "Recommended" than
"Must Read", refuting the claimed bias toward "Must Read" on odd counts. -/
theorem c1_counterexample :
    mustReadCount 11 = 5 ∧ recommendedCount 11 = 6 ∧
      (mustReadCount 11 : Int) < recommendedCount 11 := by
  refine ⟨rfl, by decide, by decide⟩

/-- C1 (amended): the orchestrator computes mustRead = max(5, floor(N/2))
and recommended = N - mustRead; for odd N at most 9 the split has strictly
more "Must Read" entries, while for odd N at least 11 it has strictly more
"Recommended" entries. -/
theorem c1_split (N : Nat) :
    mustReadCount N = max 5 (N / 2) ∧
      recommendedCount N = (N : Int) - mustReadCount N ∧
      (N % 2 = 1 →
        ((N ≤ 9 → recommendedCount N < (mustReadCount N : Int)) ∧
          (11 ≤ N → (mustReadCount N : Int) < recommendedCount N))) := by
  refine ⟨rfl, rfl, fun hodd => ⟨fun h9 => ?_, fun h11 => ?_⟩⟩ <;>
    (simp only [mustReadCount, recommendedCount]; omega)

/-- C1 witness: the amended split theorem applied at the concrete odd
counts 7 and 13. -/
theorem c1_split_witness :
    recommendedCount 7 < (mustReadCount 7 : Int) ∧
      (mustReadCount 13 : Int) < recommendedCount 13 :=
  ⟨((c1_split 7).2.2 (by decide)).1 (by decide),
    ((c1_split 13).2.2 (by decide)).2 (by decide)⟩

/-! ### C3: cache key -/

theorem cacheKeyOf_data (g t m : String) (l : Nat) (q : Option String) :
    (cacheKeyOf g t m l q).data =
      "cec_recs_v13_".data ++ (g.data ++ ("_".data ++ (t.data ++ ("_".data ++
        (m.data ++ ("_count_".data ++ ((jsNatRepr l).data ++
          ("_search_".data ++ (queryKeyPart q).data)))))))) := by
  simp [cacheKeyOf, strData_append, List.append_assoc]

/-- C3 counterexample: two requests that agree on grade, theme, month and
count and differ in exactly the query field — one has no query, the other
the literal query "none" — derive the same cache key. -/
theorem c3_counterexample :
    cacheKeyOf "3rd Grade" "Animals" "May" 10 none =
        cacheKeyOf "3rd Grade" "Animals" "May" 10 (some "none") ∧
      (none : Option String) ≠ some "none" :=
  ⟨rfl, by decide⟩

/-- C3 (amended): requests with identical fields give identical keys (the
key is a function of the request), and changing exactly one of grade,
theme, month or count changes the key; changing the query changes the key
exactly up to the rendering (query or "none") — an absent or empty query
collides with the literal query "none". -/
theorem c3_cacheKey_fields (g g' t t' m m' : String) (l l' : Nat)
    (q q' : Option String) :
    (cacheKeyOf g t m l q = cacheKeyOf g' t m l q → g = g') ∧
    (cacheKeyOf g t m l q = cacheKeyOf g t' m l q → t = t') ∧
    (cacheKeyOf g t m l q = cacheKeyOf g t m' l q → m = m') ∧
    (cacheKeyOf g t m l q = cacheKeyOf g t m l' q → l = l') ∧
    (cacheKeyOf g t m l q = cacheKeyOf g t m l q' →
      queryKeyPart q = queryKeyPart q') := by
  refine ⟨fun h => ?_, fun h => ?_, fun h => ?_, fun h => ?_, fun h => ?_⟩ <;>
    (have hd := congrArg String.data h
     rw [cacheKeyOf_data, cacheKeyOf_data] at hd)
  · exact String.ext
      (List.append_cancel_right (List.append_cancel_left hd))
  · exact String.ext (List.append_cancel_right
      (List.append_cancel_left (List.append_cancel_left
        (List.append_cancel_left hd))))
  · exact String.ext (List.append_cancel_right
      (List.append_cancel_left (List.append_cancel_left
        (List.append_cancel_left (List.append_cancel_left
          (List.append_cancel_left hd))))))
  · have h7 := List.append_cancel_left (List.append_cancel_left
      (List.append_cancel_left (List.append_cancel_left
        (List.append_cancel_left (List.append_cancel_left
          (List.append_cancel_left hd))))))
    exact jsNatRepr_inj l l' (String.ext (List.append_cancel_right h7))
  · exact String.ext (List.append_cancel_left (List.append_cancel_left
      (List.append_cancel_left (List.append_cancel_left
        (List.append_cancel_left (List.append_cancel_left
          (List.append_cancel_left (List.append_cancel_left
            (List.append_cancel_left hd)))))))))

/-- C3 witness: the field-injectivity theorem applied at concrete equal
requests, discharging each equal-key hypothesis by rfl. -/
theorem c3_cacheKey_fields_witness :
    ("3rd" : String) = "3rd" ∧ ("Animals" : String) = "Animals" ∧
      ("May" : String) = "May" ∧ (10 : Nat) = 10 ∧
      queryKeyPart (some "dog") = queryKeyPart (some "dog") := by
  have h := c3_cacheKey_fields "3rd" "3rd" "Animals" "Animals" "May" "May"
    10 10 (some "dog") (some "dog")
  exact ⟨h.1 rfl, h.2.1 rfl, h.2.2.1 rfl, h.2.2.2.1 rfl, h.2.2.2.2 rfl⟩

/-! ### C4: catalog loader -/

/-- C4 counterexample: a line whose 8th column is "Infinity" is kept by the
loader (parseFloat yields a non-NaN, infinite value), although that column
does not parse as a finite decimal number as the claim requires. -/
theorem c4_counterexample :
    parseBookData "a\tb\tc\td\te\tf\tg\tInfinity" =
        [⟨"a", "c", "d", "e", "f", "g", JsFloat.infty false, "", "", ""⟩] ∧
      specParsesAsFiniteDecimal "Infinity" = false := by
  refine ⟨by decide, by decide⟩

/-- C4 (amended): a line is kept exactly when it has at least 8
tab-separated columns and parseFloat of its 8th column is not NaN (which
admits Infinity literals and any string with a valid numeric prefix);
malformed lines are skipped without failing the parse, and every produced
entry's bl is the parsed (non-NaN, possibly infinite) value of its line's
8th column. -/
theorem c4_parse (tsv : String) :
    (∀ line : String, (lineToBook line).isSome ↔
        (8 ≤ (jsSplit line '\t').length ∧
          (jsParseFloat ((jsSplit line '\t').getD 7 "")).isSome)) ∧
      ∀ b ∈ parseBookData tsv, ∃ l ∈ splitChars '\n' (jsTrim tsv).data,
        lineToBook ⟨l⟩ = some b ∧
          jsParseFloat ((jsSplit (⟨l⟩ : String) '\t').getD 7 "") =
            some b.bl := by
  constructor
  · intro line
    rcases hp : jsParseFloat ((jsSplit line '\t').getD 7 "") with _ | bl <;>
      by_cases hlen : (jsSplit line '\t').length < 8
    · simp only [lineToBook, if_pos hlen, Option.isSome_none,
        Bool.false_eq_true, false_iff]
      exact fun h => absurd h.1 (by omega)
    · simp only [lineToBook, if_neg hlen, hp]
      simp
    · simp only [lineToBook, if_pos hlen, Option.isSome_none,
        Bool.false_eq_true, false_iff]
      exact fun h => absurd h.1 (by omega)
    · simp only [lineToBook, if_neg hlen, hp]
      simp
      omega
  · intro b hb
    obtain ⟨l, hl, he⟩ := List.mem_filterMap.mp hb
    refine ⟨l, hl, he, ?_⟩
    rcases hp : jsParseFloat ((jsSplit (⟨l⟩ : String) '\t').getD 7 "")
        with _ | bl <;>
      by_cases hlen : (jsSplit (⟨l⟩ : String) '\t').length < 8
    · simp only [lineToBook, if_pos hlen] at he
      simp at he
    · simp only [lineToBook, if_neg hlen, hp] at he
      simp at he
    · simp only [lineToBook, if_pos hlen] at he
      simp at he
    · simp only [lineToBook, if_neg hlen, hp] at he
      injection he with h
      rw [← h]

/-- C4 witness: the keep-and-bl characterization applied to a concrete
one-line dataset that the loader keeps (its 8th column parses to a
non-NaN value without any rational arithmetic, so the instance is fully
computable). -/
theorem c4_parse_witness :
    ∃ l ∈ splitChars '\n' (jsTrim "x\ty\tc\td\te\tf\tg\tInfinity").data,
      lineToBook ⟨l⟩ =
          some ⟨"x", "c", "d", "e", "f", "g", JsFloat.infty false,
            "", "", ""⟩ ∧
        jsParseFloat ((jsSplit (⟨l⟩ : String) '\t').getD 7 "") =
          some (RawBook.bl ⟨"x", "c", "d", "e", "f", "g",
            JsFloat.infty false, "", "", ""⟩) :=
  (c4_parse "x\ty\tc\td\te\tf\tg\tInfinity").2
    ⟨"x", "c", "d", "e", "f", "g", JsFloat.infty false, "", "", ""⟩
    (by decide)

/-! ### C5: query disqualification -/

theorem searchText_data (b : RawBook) :
    (searchText b).data =
      (jsToLower b.title).data ++
        ((jsToLower " ").data ++
          ((jsToLower b.author).data ++
            (jsToLower (" " ++ b.theme ++ " " ++ b.summary ++ " " ++
              b.genre)).data)) := by
  simp [searchText, jsToLower, strData_append, List.map_append,
    List.append_assoc]

/-- C5 counterexample: for the book titled "Cat" by "Bob" and the query
"CAT", the lowercased searchable text contains no occurrence of the query
string itself, yet the scorer returns 70, not -100 — the code matches the
query only after lowercasing and trimming it, which the claim omits. -/
theorem c5_counterexample :
    jsIncludes
        (searchText ⟨"1", "M1", "Cat", "", "Bob", "500L", JsFloat.finite 1,
          "y", "x", ""⟩) "CAT" = false ∧
      getRelevancyScore
          ⟨"1", "M1", "Cat", "", "Bob", "500L", JsFloat.finite 1, "y", "x",
            ""⟩ "June" "x" (some "CAT") = 70 := by
  refine ⟨by decide, by decide⟩

/-- C5 (amended): for every book, month and theme, and every query whose
trimmed form is non-blank, if the lowercased searchable text does not
contain the normalized (lowercased, trimmed) query anywhere, the scorer
returns exactly -100, independent of theme and month. -/
theorem c5_query_disqualified (b : RawBook) (month theme s : String)
    (hq : jsTrim s ≠ "")
    (hmiss : jsIncludes (searchText b) (jsTrim (jsToLower s)) = false) :
    getRelevancyScore b month theme (some s) = -100 := by
  have hqa : queryActive (some s) = true := by
    simp [queryActive, hq]
  have hmissL : listOccurs (jsTrim (jsToLower s)).data (searchText b).data
      = false := hmiss
  have hT : jsIncludes (jsToLower b.title) (jsTrim (jsToLower s)) =
      false := by
    by_contra hc
    simp only [Bool.not_eq_false] at hc
    have h2 : listOccurs (jsTrim (jsToLower s)).data (searchText b).data =
        true := by
      rw [searchText_data]
      exact listOccurs_append_right _ _ _ hc
    rw [hmissL] at h2
    exact Bool.noConfusion h2
  have hA : jsIncludes (jsToLower b.author) (jsTrim (jsToLower s)) =
      false := by
    by_contra hc
    simp only [Bool.not_eq_false] at hc
    have h2 : listOccurs (jsTrim (jsToLower s)).data (searchText b).data =
        true := by
      rw [searchText_data]
      refine listOccurs_append_left _ _ _ ?_
      refine listOccurs_append_left _ _ _ ?_
      exact listOccurs_append_right _ _ _ hc
    rw [hmissL] at h2
    exact Bool.noConfusion h2
  have hqs : queryScore b (some s) = 0 := by
    simp [queryScore, hqa, normQuery, hT, hA, hmiss]
  simp [getRelevancyScore, hqa, hqs]

/-- C5 witness: the amended disqualification theorem applied to a concrete
book and the concrete query "zebra", which occurs nowhere in its
searchable text. -/
theorem c5_query_disqualified_witness :
    getRelevancyScore
        ⟨"1", "c", "T", "", "A", "L", JsFloat.finite 1, "g", "t", "s"⟩
        "May" "Fantasy" (some "zebra") = -100 :=
  c5_query_disqualified
    ⟨"1", "c", "T", "", "A", "L", JsFloat.finite 1, "g", "t", "s"⟩
    "May" "Fantasy" "zebra" (by decide) (by decide)

/-! ### C9: score bounds -/

theorem queryScore_bounds (b : RawBook) (q : Option String) :
    0 ≤ queryScore b q ∧ queryScore b q ≤ 110 := by
  simp only [queryScore]
  split_ifs <;> omega

theorem themeScore_bounds (b : RawBook) (theme : String) :
    0 ≤ themeScore b theme ∧ themeScore b theme ≤ 270 := by
  simp only [themeScore]
  split_ifs <;> omega

theorem monthScore_bounds (b : RawBook) (month : String) :
    0 ≤ monthScore b month ∧ monthScore b month ≤ 5 := by
  simp only [monthScore]
  by_cases h1 : jsToLower month = "january" <;>
    by_cases h2 : jsToLower month = "february" <;>
    by_cases h3 : jsToLower month = "october" <;>
    by_cases h4 : jsToLower month = "december" <;>
    simp_all <;> (try split_ifs) <;> omega

theorem getRelevancyScore_le (b : RawBook) (month theme : String)
    (q : Option String) : getRelevancyScore b month theme q ≤ 385 := by
  have hq := queryScore_bounds b q
  have ht := themeScore_bounds b theme
  have hm := monthScore_bounds b month
  unfold getRelevancyScore
  split_ifs <;> omega

/-- C9 counterexample: the negation of the claim — at the bound 385 there
is no book, month, theme and query on which the scorer exceeds it, so the
relevance score is not unbounded. -/
theorem c9_counterexample :
    ¬ ∀ B : Int, ∃ (b : RawBook) (month theme : String)
      (q : Option String), B < getRelevancyScore b month theme q := by
  intro h
  obtain ⟨b, month, theme, q, hb⟩ := h 385
  exact absurd hb (not_lt.mpr (getRelevancyScore_le b month theme q))

/-- C9 (amended): all scoring contributions are additive, but a single
invocation of the scorer is bounded above by 385 (at most 110 from the
query block, 270 from the nine theme buckets, and 5 from the mutually
exclusive seasonal bonuses). -/
theorem c9_score_bounded (b : RawBook) (month theme : String)
    (q : Option String) : getRelevancyScore b month theme q ≤ 385 :=
  getRelevancyScore_le b month theme q

/-! ### C10: no discard without a query -/

/-- C10: when the free-text query is absent or blank, the relevance score
is always non-negative, and therefore (with the jitter in [0,1)) the
"combined score > -5" filter of the candidate selector discards no
candidate — only the -100 query sentinel can ever disqualify one. -/
theorem c10_no_discard_without_query (db : List RawBook)
    (grade month theme : String) (query : Option String) (jitter : Nat → ℚ)
    (hj : ∀ i, 0 ≤ jitter i ∧ jitter i < 1)
    (hq : queryActive query = false) :
    (∀ b : RawBook, 0 ≤ getRelevancyScore b month theme query) ∧
      scoredCandidates db grade month theme query jitter =
        (candidatePool db grade query).enum.map fun p =>
          (p.2, (getRelevancyScore p.2 month theme query : ℚ) +
            jitter p.1) := by
  have hscore : ∀ b : RawBook, 0 ≤ getRelevancyScore b month theme query := by
    intro b
    have ht := themeScore_bounds b theme
    have hm := monthScore_bounds b month
    have hqs : queryScore b query = 0 := by
      simp [queryScore, hq]
    have hcond : ¬(queryActive query = true ∧ queryScore b query < 20) :=
      fun hc => by rw [hq] at hc; exact Bool.noConfusion hc.1
    simp only [getRelevancyScore, if_neg hcond]
    omega
  refine ⟨hscore, ?_⟩
  unfold scoredCandidates
  apply List.filter_eq_self.mpr
  intro x hx
  obtain ⟨p, hp, rfl⟩ := List.mem_map.mp hx
  simp only [decide_eq_true_eq]
  have h0 : (0 : ℚ) ≤ (getRelevancyScore p.2 month theme query : ℚ) := by
    exact_mod_cast hscore p.2
  have hj0 := (hj p.1).1
  linarith

/-- C10 witness: the theorem applied with the concrete jitter 1/2, an
absent query, and a concrete book and catalog. -/
theorem c10_witness :
    0 ≤ getRelevancyScore
        ⟨"1", "c", "T", "", "A", "L", JsFloat.finite 1, "g", "t", "s"⟩
        "May" "All Themes" none ∧
      scoredCandidates [] "3rd Grade" "May" "All Themes" none
          (fun _ => 1/2) =
        (candidatePool [] "3rd Grade" none).enum.map fun p =>
          (p.2, (getRelevancyScore p.2 "May" "All Themes" none : ℚ) +
            (1 : ℚ)/2) := by
  have h := c10_no_discard_without_query [] "3rd Grade" "May" "All Themes"
    none (fun _ => 1/2) (fun i => by norm_num) rfl
  exact ⟨h.1 _, h.2⟩

/-! ### C7: cache write guard -/

theorem genAfterMiss_writes (db : List RawBook) (apiKey : Option String)
    (grade month theme : String) (limit : Nat) (query : Option String)
    (jitter : Nat → ℚ) (ai : Except Unit RecResult) (rem : List String) :
    ∀ w ∈ (genAfterMiss db apiKey grade month theme limit query jitter ai
        rem).writes, w.2.books ≠ [] := by
  intro w hw
  rcases ai with e | result
  · simp only [genAfterMiss] at hw
    split_ifs at hw <;> simp at hw
  · simp only [genAfterMiss] at hw
    split_ifs at hw with h1 h2 h3
    · simp at hw
    · simp at hw
    · simp only [List.mem_singleton] at hw
      rw [hw]
      exact List.length_pos.mp h3
    · simp at hw

/-- C7: a recommendation result with an empty book list is never written
to the durable cache — every setItem issued by the orchestrator carries a
result with at least one book. -/
theorem c7_no_empty_write (db : List RawBook) (apiKey : Option String)
    (grade month theme : String) (limit : Nat) (query : Option String)
    (store : List (String × StoredVal)) (jitter : Nat → ℚ)
    (ai : Except Unit RecResult) :
    ∀ w ∈ (generateBookRecommendations db apiKey grade month theme limit
        query store jitter ai).writes, w.2.books ≠ [] := by
  intro w hw
  simp only [generateBookRecommendations] at hw
  rcases hls : store.lookup (cacheKeyOf grade theme month limit query)
      with _ | sv
  · simp only [hls] at hw
    exact genAfterMiss_writes db apiKey grade month theme limit query
      jitter ai [] w hw
  · rcases sv with _ | r
    · simp only [hls] at hw
      exact genAfterMiss_writes db apiKey grade month theme limit query
        jitter ai [cacheKeyOf grade theme month limit query] w hw
    · simp only [hls] at hw
      simp at hw

/-- C7 witness: a concrete run that does write — the written entry's book
list is non-empty. -/
theorem c7_witness :
    ((cacheKeyOf "3rd Grade" "Adventure" "May" 10 none,
        RecResult.mk [⟨"1", "c", "T", "A", "L", "3", "s", "v", "Beginner",
          "Must Read"⟩]) : String × RecResult).2.books ≠ [] :=
  c7_no_empty_write [] (some "key") "3rd Grade" "May" "Adventure" 10 none
    [] (fun _ => 0)
    (Except.ok ⟨[⟨"1", "c", "T", "A", "L", "3", "s", "v", "Beginner",
      "Must Read"⟩]⟩)
    (cacheKeyOf "3rd Grade" "Adventure" "May" 10 none,
      RecResult.mk [⟨"1", "c", "T", "A", "L", "3", "s", "v", "Beginner",
        "Must Read"⟩])
    (by decide)

/-! ### C2: absent cover results and the promise cache -/

/-- C2 counterexample: a first resolution for a key fails on both sources
(settling the memoized promise to null); a second resolution for the same
key — whose fresh lookups would now succeed — issues no fresh lookups and
returns the memoized absent result, because the settled promise is still
in the promise cache. -/
theorem c2_counterexample :
    (resolveCover
        (resolveCover ⟨[], []⟩ (coverKey "Dune" "Herbert") none).state
        (coverKey "Dune" "Herbert") (some "http://img.example/c.jpg")
      ).fetched = false ∧
      (resolveCover
          (resolveCover ⟨[], []⟩ (coverKey "Dune" "Herbert") none).state
          (coverKey "Dune" "Herbert") (some "http://img.example/c.jpg")
        ).result = none := by
  refine ⟨by decide, by decide⟩

/-- C2 (amended): an absent result IS cached: once the promise cache holds
a settled null resolution for a key (and the URL cache has no entry for
it), any later resolution for that key returns the memoized absent result
without issuing fresh lookups and leaves both caches unchanged; only
resolved URLs are ever written to the URL cache. -/
theorem c2_absent_memoized (s : CoverState) (key : String)
    (fresh : Option String)
    (hc : s.coverCache.lookup key = none)
    (hp : s.promiseCache.lookup key = some none) :
    resolveCover s key fresh = ⟨s, none, false⟩ := by
  unfold resolveCover loadCover
  rw [hc, hp]

/-- C2 witness: the memoization theorem applied to the concrete state left
behind by a failed resolution. -/
theorem c2_absent_memoized_witness :
    resolveCover ⟨[], [(coverKey "A" "B", none)]⟩ (coverKey "A" "B")
        (some "http://img.example/c.jpg") =
      ⟨⟨[], [(coverKey "A" "B", none)]⟩, none, false⟩ :=
  c2_absent_memoized ⟨[], [(coverKey "A" "B", none)]⟩ (coverKey "A" "B")
    (some "http://img.example/c.jpg") (by decide) (by decide)

/-! ### C8: race failure composition -/

/-- C8: whenever the cover race resolves, a total failure of both sources
yields absent, and a single-success outcome yields that source's URL in
proxied form, regardless of which source succeeded. -/
theorem c8_race_composition (gb ol r : Option String)
    (h : RaceResolves gb ol r) :
    ((gb = none ∧ ol = none) → r = none) ∧
      ∀ u : String,
        ((gb = some u ∧ ol = none) ∨ (gb = none ∧ ol = some u)) →
          r = some (getProxiedUrl u) := by
  cases h with
  | bothFail =>
    refine ⟨fun _ => rfl, fun u hu => ?_⟩
    rcases hu with ⟨h1, _⟩ | ⟨_, h2⟩
    · exact Option.noConfusion h1
    · exact Option.noConfusion h2
  | gbWins u0 olo =>
    refine ⟨fun hc => Option.noConfusion hc.1, fun u hu => ?_⟩
    rcases hu with ⟨h1, _⟩ | ⟨h1, _⟩
    · cases h1
      rfl
    · exact Option.noConfusion h1
  | olWins gbo u0 =>
    refine ⟨fun hc => Option.noConfusion hc.2, fun u hu => ?_⟩
    rcases hu with ⟨_, h2⟩ | ⟨_, h2⟩
    · exact Option.noConfusion h2
    · cases h2
      rfl

/-- C8 witness: the composition theorem applied to a concrete race in
which only Google Books succeeds; the resolved value is the proxied form
of its URL. -/
theorem c8_race_witness :
    (some "https://wsrv.nl/?url=a.com%2Fimg&w=400&output=webp" :
        Option String) =
      some (getProxiedUrl "http://a.com/img") := by
  have hp : getProxiedUrl "http://a.com/img" =
      "https://wsrv.nl/?url=a.com%2Fimg&w=400&output=webp" := by decide
  have hr : RaceResolves (some "http://a.com/img") none
      (some "https://wsrv.nl/?url=a.com%2Fimg&w=400&output=webp") :=
    hp ▸ RaceResolves.gbWins "http://a.com/img" none
  exact (c8_race_composition _ _ _ hr).2 "http://a.com/img"
    (Or.inl ⟨rfl, rfl⟩)

/-! ### C6: verification failures -/

/-- C6 counterexample: with the credential missing, the verification
operation throws ("API Key is missing.") instead of returning the
fail-closed negative verdict — the error is propagated to the caller. -/
theorem c6_counterexample :
    verifyBookCoverMatch "imgdata" "Holes" "Louis Sachar" none
        (Except.error ()) =
      Except.error "API Key is missing." := rfl

/-- C6 (amended): once the credential check passes, every failure of the
verification round trip is absorbed and mapped to the negative verdict
with the generic reason — no error reaches the caller; a missing
credential, by contrast, throws before the service is contacted. -/
theorem c6_fail_closed (base64Image title author : String)
    (apiKey : Option String) (hk : jsFalsyOpt apiKey = false) :
    verifyBookCoverMatch base64Image title author apiKey
        (Except.error ()) =
      Except.ok ⟨false, "Verification service failed."⟩ := by
  simp [verifyBookCoverMatch, hk]

/-- C6 witness: the fail-closed theorem at a concrete request with a
present credential. -/
theorem c6_fail_closed_witness :
    verifyBookCoverMatch "imgdata" "Holes" "Louis Sachar" (some "k")
        (Except.error ()) =
      Except.ok ⟨false, "Verification service failed."⟩ :=
  c6_fail_closed "imgdata" "Holes" "Louis Sachar" (some "k") (by decide)
